import Mathlib

/-!
Verification of the workflow-session coordinator of this repository:
shallow embedding of `src/utils/cache.py`, `src/utils/lock.py`,
`src/graph/builder.py` (`run_langgraph`) and `src/workers/alert.py`,
with theorems settling the specified properties.

Modelling conventions:
* JSON-serializable Python values are `JVal`; a Python dict is an
  association list (`Dict`) whose operations mirror dict semantics
  (insertion order preserved, assignment replaces in place).
* The Redis store is an association list from key to value.  A value
  written with `json.dumps` and read back with `json.loads` is modelled
  as the value itself.  TTLs are not modelled: `expire` refreshes a
  key TTL without changing its value, so reads leave the modelled
  store unchanged.
* Each store operation also returns the list of keys it touched
  (read, wrote, deleted or refreshed), in source order, so that
  key-layout properties can be stated.
* Wall-clock timestamps (`int(time.time() * 1000)`) are omitted from
  event payloads; they are fresh clock reads with no other role.
-/

/-- JSON-like values, the payloads of session state maps. -/
inductive JVal where
  | null
  | bool (b : Bool)
  | num (n : Int)
  | str (s : String)
  | arr (xs : List JVal)
  | obj (fields : List (String × JVal))

/-- Python truthiness of a JSON value (`if not x:`). -/
def JVal.truthy : JVal → Bool
  | .null => false
  | .bool b => b
  | .num n => n != 0
  | .str s => s != ""
  | .arr xs => !xs.isEmpty
  | .obj fs => !fs.isEmpty

/-- Association-list lookup (first binding wins), shared by the dict
model and the key-value store model. -/
def alookup {α : Type} : List (String × α) → String → Option α
  | [], _ => none
  | (k1, v1) :: rest, k => if k1 == k then some v1 else alookup rest k

/-- Association-list assignment: replace the binding in place if the key
exists (Python dict update / Redis SET), else append. -/
def aset {α : Type} : List (String × α) → String → α → List (String × α)
  | [], k, v => [(k, v)]
  | (k1, v1) :: rest, k, v =>
      if k1 == k then (k, v) :: rest else (k1, v1) :: aset rest k v

/-- Association-list deletion (Redis DEL). -/
def adel {α : Type} : List (String × α) → String → List (String × α)
  | [], _ => []
  | (k1, v1) :: rest, k =>
      if k1 == k then adel rest k else (k1, v1) :: adel rest k

/-- A Python dict with JSON values. -/
abbrev Dict := List (String × JVal)

/-- Source `d.get(k)`: the stored value, or `None` when absent. -/
def getv (d : Dict) (k : String) : JVal := (alookup d k).getD .null

/-- Source `k in d`. -/
def hasKey (d : Dict) (k : String) : Bool := (alookup d k).isSome

/-- Source `d[k] = v`. -/
def setKey (d : Dict) (k : String) (v : JVal) : Dict := aset d k v

/-- Python `d.update(e)`: apply the bindings of `e` left to right, later keys
overwriting earlier ones. -/
def updateDict (d e : Dict) : Dict :=
  e.foldl (fun acc kv => setKey acc kv.1 kv.2) d

/-- Source `list(d.keys())`. -/
def dictKeys (d : Dict) : List String := d.map Prod.fst

/-- The Redis database restricted to string keys holding serialized
JSON (the `state:*` keys of `src/utils/cache.py`). -/
abbrev StateStore := List (String × JVal)

/-- Source `json.loads` of a value written by this module is the stored
object; state keys are only ever written with dict payloads. -/
def asObj : JVal → Option Dict
  | .obj d => some d
  | _ => none

/-! ### `src/utils/cache.py` — single-key state -/

/-- Source `set_state`: store the whole state dict under `state:<id>`. -/
def set_state (st : StateStore) (session_id : String) (state : Dict) :
    StateStore × List String :=
  let key := "state:" ++ session_id
  (aset st key (.obj state), [key])

/-- Source `get_state`: read `state:<id>`, refreshing its TTL; `None` when
absent. -/
def get_state (st : StateStore) (session_id : String) :
    Option JVal × List String :=
  let key := "state:" ++ session_id
  (alookup st key, [key])

/-- Source `delete_state`: remove `state:<id>`. -/
def delete_state (st : StateStore) (session_id : String) :
    StateStore × List String :=
  let key := "state:" ++ session_id
  (adel st key, [key])

/-! ### `src/utils/cache.py` — sharded state -/

/-- Source `set_state_sharded`: split the state into the base shard
(`topic`, `tasks`, `report_paths`, `audio_path`, `_session_id`,
`error`) and the two result shards (`research_results`,
`code_results`, each replaced by `{}` when absent or `None`), and
write the three keys. -/
def set_state_sharded (st : StateStore) (session_id : String) (state : Dict) :
    StateStore × List String :=
  let base : Dict :=
    [("topic", getv state "topic"),
     ("tasks", getv state "tasks"),
     ("report_paths", getv state "report_paths"),
     ("audio_path", getv state "audio_path"),
     ("_session_id", getv state "_session_id"),
     ("error", getv state "error")]
  let research : JVal :=
    match getv state "research_results" with
    | .null => .obj []
    | v => v
  let code : JVal :=
    match getv state "code_results" with
    | .null => .obj []
    | v => v
  let key_base := "state:" ++ session_id ++ ":base"
  let key_research := "state:" ++ session_id ++ ":research"
  let key_code := "state:" ++ session_id ++ ":code"
  let st1 := aset st key_base (.obj base)
  let st2 := aset st1 key_research research
  let st3 := aset st2 key_code code
  (st3, [key_base, key_research, key_code])

/-- Source `get_state_sharded`: `None` when the base shard is absent;
otherwise merge the three shards into the fixed eight-field state,
defaulting an absent result shard to `{}`, refreshing the TTL of
every shard that existed. -/
def get_state_sharded (st : StateStore) (session_id : String) :
    Option Dict × List String :=
  let key_base := "state:" ++ session_id ++ ":base"
  let key_research := "state:" ++ session_id ++ ":research"
  let key_code := "state:" ++ session_id ++ ":code"
  match alookup st key_base with
  | none => (none, [key_base])
  | some data_base =>
    let base : Dict := (asObj data_base).getD []
    let research : JVal := (alookup st key_research).getD (.obj [])
    let code : JVal := (alookup st key_code).getD (.obj [])
    let merged : Dict :=
      [("topic", getv base "topic"),
       ("tasks", getv base "tasks"),
       ("research_results", research),
       ("code_results", code),
       ("report_paths", getv base "report_paths"),
       ("audio_path", getv base "audio_path"),
       ("_session_id", getv base "_session_id"),
       ("error", getv base "error")]
    (some merged, [key_base, key_research, key_code])

/-- Source `delete_state_sharded`: delete the three shard keys
unconditionally. -/
def delete_state_sharded (st : StateStore) (session_id : String) :
    StateStore × List String :=
  let key_base := "state:" ++ session_id ++ ":base"
  let key_research := "state:" ++ session_id ++ ":research"
  let key_code := "state:" ++ session_id ++ ":code"
  (adel (adel (adel st key_base) key_research) key_code,
   [key_base, key_research, key_code])

/-! ### `src/utils/cache.py` — work queue -/

/-- The Redis list at `queue:session_tasks`, head of the Lean list =
left end of the Redis list. -/
abbrev Queue := List JVal

/-- Source `QUEUE_NAME`. -/
def QUEUE_NAME : String := "queue:session_tasks"

/-- Source `enqueue_session`: LPUSH the JSON item
`{"session_id": ..., "topic": ...}`. -/
def enqueue_session (q : Queue) (session_id topic : String) :
    Queue × List String :=
  let item : JVal := .obj [("session_id", .str session_id), ("topic", .str topic)]
  (item :: q, [QUEUE_NAME])

/-- Source `dequeue_session`: BRPOP (blocking, bounded wait abstracted) or
RPOP; both pop from the right end, returning the parsed item or
`None` when the queue stays empty. -/
def dequeue_session (q : Queue) (block : Bool := true) :
    Option JVal × Queue × List String :=
  if block then
    match q.getLast? with
    | some item => (some item, q.dropLast, [QUEUE_NAME])
    | none => (none, q, [QUEUE_NAME])
  else
    match q.getLast? with
    | some item => (some item, q.dropLast, [QUEUE_NAME])
    | none => (none, q, [QUEUE_NAME])

/-! ### Alert state persistence

`src/workers/alert.py` and `src/workers/queue_monitor.py` import
`get_alert_state` and `set_alert_state` from `src.utils.cache`, but
`src/utils/cache.py` does not define them. -/

/-- The Redis keys `alert:state:<type>` holding `"NORMAL"` or
`"ALERTING"`. -/
abbrev AlertStore := List (String × String)

/-- Modelled from the spec: `get_alert_state` is missing from
`src/utils/cache.py`; per §4.6 and the key layout of §6 it reads the
persisted alert state at `alert:state:<type>`, `None` when absent
(absence is equivalent to NORMAL). -/
def get_alert_state (st : AlertStore) (alert_type : String) :
    Option String × List String :=
  let key := "alert:state:" ++ alert_type
  (alookup st key, [key])

/-- Modelled from the spec: `set_alert_state` is missing from
`src/utils/cache.py`; per §4.6 and §6 it persists the alert state at
`alert:state:<type>` with an expiry. -/
def set_alert_state (st : AlertStore) (alert_type state : String) :
    AlertStore × List String :=
  let key := "alert:state:" ++ alert_type
  (aset st key state, [key])

/-! ### `src/utils/lock.py` -/

/-- The Redis keys `lock:session:<id>` holding lock tokens. -/
abbrev LockStore := List (String × String)

/-- One atomic `SET key lock_id NX EX timeout` attempt of
`acquire_lock`: succeeds and returns the fresh token iff the lock key
is absent.  (The surrounding retry loop is a timed wait re-running
this same attempt; the claims quantify over its final outcome.) -/
def try_acquire (ls : LockStore) (session_id lock_id : String) :
    Option String × LockStore × List String :=
  let lock_key := "lock:session:" ++ session_id
  match alookup ls lock_key with
  | some _ => (none, ls, [lock_key])
  | none => (some lock_id, aset ls lock_key lock_id, [lock_key])

/-- Source `release_lock`: the Lua script atomically compares the stored
value at `lock:session:<id>` with the caller token and deletes the
key only on a match; a `redis.RedisError` (modelled by `store_error`)
is caught and turned into `False`. -/
def release_lock (ls : LockStore) (session_id lock_id : String)
    (store_error : Bool := false) : Bool × LockStore × List String :=
  let lock_key := "lock:session:" ++ session_id
  if store_error then
    (false, ls, [lock_key])
  else
    match alookup ls lock_key with
    | some v =>
        if v == lock_id then (true, adel ls lock_key, [lock_key])
        else (false, ls, [lock_key])
    | none => (false, ls, [lock_key])

/-! ### `src/graph/builder.py` — `run_langgraph` -/

/-- A Pub/Sub event as published on `channel:session:<id>`: the JSON
JSON payload fields `session_id`, `node` and `status` plus the remaining
payload fields (`topic`, `report_paths`, `audio_path`, `error`);
the `timestamp` field is a wall-clock read and is omitted. -/
structure Event where
  session_id : String
  node : String
  status : String
  payload : Dict

/-- The world `run_langgraph` acts on: the session-state keys of the
store, the events published so far, the states the engine was invoked
with (`build_graph_with_memory` / `compile` / `invoke`, one entry per
invocation), and the `(session_id, lock_id)` arguments of each
`release_lock` call. -/
structure World where
  stateStore : StateStore
  published : List (String × Event)
  engineCalls : List Dict
  releaseCalls : List (String × String)

/-- Append one published event. -/
def publishEvent (w : World) (channel : String) (e : Event) : World :=
  { w with published := w.published ++ [(channel, e)] }

/-- Read half of `_get_state_persister`: `get_state_sharded` or
`get_state` (`json.loads` of a present single-key value is the stored
dict). -/
def loadState (st : StateStore) (session_id : String) (use_sharded : Bool) :
    Option Dict :=
  if use_sharded then (get_state_sharded st session_id).1
  else ((get_state st session_id).1).bind asObj

/-- Write half of `_get_state_persister`: `set_state_sharded` or
`set_state`. -/
def saveState (st : StateStore) (session_id : String) (state : Dict)
    (use_sharded : Bool) : StateStore :=
  if use_sharded then (set_state_sharded st session_id state).1
  else (set_state st session_id state).1

/-- Step 1 of `run_langgraph`: load the persisted state for the given
session id (empty when absent), merge `initial_state` on top, and
force `_session_id`. -/
def mergedState (st : StateStore) (session_id : String)
    (initial_state : Dict) (use_sharded : Bool) : Dict :=
  let current_state := (loadState st session_id use_sharded).getD []
  setKey (updateDict current_state initial_state) "_session_id" (.str session_id)

/-- The lock-busy error message of `run_langgraph`. -/
def busyMessage : String := "会话正在执行，请稍后重试"

/-- The `ValueError` message raised when the merged state has no
usable `topic`. -/
def topicRequiredMessage : String := "初始状态中必须包含 \x27topic\x27 字段才能启动流程。"

/-- Python truthiness of the result of `acquire_lock` (`if not lock_id:`). -/
def truthyLock : Option String → Bool
  | none => false
  | some s => s != ""

/-- The `except Exception` block of `run_langgraph`: publish the
`ALL`/`ERROR` event, persist the current (pre-engine) state augmented
with the error message, and return the structured error map. -/
def exceptBlock (w : World) (channel session_id : String)
    (current_state : Dict) (use_sharded : Bool) (error_message : String) :
    Dict × World :=
  let w1 := publishEvent w channel
    { session_id := session_id, node := "ALL", status := "ERROR",
      payload := [("error", .str error_message)] }
  let state_with_error := setKey current_state "error" (.str error_message)
  let w2 := { w1 with
    stateStore := saveState w1.stateStore session_id state_with_error use_sharded }
  ([("_session_id", .str session_id), ("error", .str error_message)], w2)

/-- The `try` body of `run_langgraph` (steps 3-7): validate `topic`
(a missing or falsy topic raises `ValueError`, landing in the except
block), publish `ALL`/`START`, invoke the engine (`engine` models
`build_graph_with_memory`/`compile`/`invoke`; `Except.error` is a
raised exception message, also landing in the except block), then
publish `ALL`/`COMPLETE`, persist the final state and return it with
`_session_id` forced present. -/
def runTry (engine : Dict → Except String Dict) (w : World)
    (channel session_id : String) (current_state : Dict)
    (use_sharded : Bool) : Dict × World :=
  if !(hasKey current_state "topic") || !(getv current_state "topic").truthy then
    exceptBlock w channel session_id current_state use_sharded topicRequiredMessage
  else
    let w1 := publishEvent w channel
      { session_id := session_id, node := "ALL", status := "START",
        payload := [("topic", getv current_state "topic")] }
    let w2 := { w1 with engineCalls := w1.engineCalls ++ [current_state] }
    match engine current_state with
    | .error msg => exceptBlock w2 channel session_id current_state use_sharded msg
    | .ok final_state =>
      let w3 := publishEvent w2 channel
        { session_id := session_id, node := "ALL", status := "COMPLETE",
          payload := [("report_paths", getv final_state "report_paths"),
                      ("audio_path", getv final_state "audio_path")] }
      let w4 := { w3 with
        stateStore := saveState w3.stateStore session_id final_state use_sharded }
      let response :=
        if hasKey final_state "_session_id" then final_state
        else setKey final_state "_session_id" (.str session_id)
      (response, w4)

/-- Source `run_langgraph` for a supplied session id (when no id is given the
source generates a fresh UUID and proceeds identically with an empty
loaded state).  `acquired` is the outcome of
`acquire_lock(session_id, timeout=600, wait=10)`; on a falsy outcome
the busy error map is returned with no other effect, otherwise the
`try` body runs and the `finally` block records exactly one
`release_lock` call (its boolean result is logged, never raised). -/
def run_langgraph (engine : Dict → Except String Dict)
    (acquired : Option String) (w : World) (initial_state : Dict)
    (session_id : String) (use_sharded : Bool := true) : Dict × World :=
  let current_state := mergedState w.stateStore session_id initial_state use_sharded
  if !(truthyLock acquired) then
    ([("_session_id", .str session_id), ("error", .str busyMessage)], w)
  else
    let lock_id := acquired.getD ""
    let channel := "channel:session:" ++ session_id
    let (result, w1) := runTry engine w channel session_id current_state use_sharded
    let w2 :=
      if lock_id != "" then
        { w1 with releaseCalls := w1.releaseCalls ++ [(session_id, lock_id)] }
      else w1
    (result, w2)

/-- Source `get_existing_state`: thin pass-through to the selected reader. -/
def get_existing_state (st : StateStore) (session_id : String)
    (use_sharded : Bool := true) : Option Dict :=
  loadState st session_id use_sharded

/-- Source `reset_session`: thin pass-through to the selected deleter. -/
def reset_session (st : StateStore) (session_id : String)
    (use_sharded : Bool := true) : StateStore :=
  if use_sharded then (delete_state_sharded st session_id).1
  else (delete_state st session_id).1

/-! ### `src/workers/alert.py` — failure-rate monitor

Failure rates are Python floats; the values the monitor computes and
compares here (`k / n` for window counts, thresholds like `0.1`) are
modelled as exact rationals. -/

/-- Source `MAX_WINDOW_SIZE`. -/
def MAX_WINDOW_SIZE : Nat := 100

/-- Source `ALERT_TYPE` of the failure-rate monitor. -/
def ALERT_TYPE : String := "failure_rate"

/-- Source `record_task_result`: append to the `deque(maxlen=100)` window,
discarding the oldest entry beyond capacity. -/
def record_task_result (window : List Bool) (success : Bool) : List Bool :=
  let w := window ++ [success]
  if MAX_WINDOW_SIZE < w.length then w.drop (w.length - MAX_WINDOW_SIZE) else w

/-- Source `get_failure_rate`: `0.0` on an empty window, else
`count(False) / len(window)`. -/
def get_failure_rate (window : List Bool) : ℚ :=
  if window.isEmpty then 0
  else (window.count false : ℚ) / (window.length : ℚ)

/-- A dispatched notification of `send_failure_alert`: whether it is a
recovery and the rate it reports (subject/body strings are formatted
from exactly these two data). -/
structure Notification where
  is_recovery : Bool
  rate : ℚ

/-- The names bound at module scope in `src/workers/alert.py`: its
imports (including the two names of the `prometheus_client` try/except)
and its module-level definitions.  `PROMETHEUS_METRICS_ENABLED`, read
by `send_failure_alert` and `monitor_failure_rate_loop`, is not among
them — it is defined in `src/config/settings.py` but absent from the
module import list. -/
def alertModuleGlobals : List String :=
  ["asyncio", "time", "logging", "deque", "Deque",
   "FAILURE_RATE_THRESHOLD", "ALERT_PROVIDER",
   "JOB_INTERVAL_SECONDS", "ALERT_STATE_EXPIRY_SECONDS",
   "LocalAlertAdapter", "CloudAlertAdapter",
   "get_alert_state", "set_alert_state",
   "Gauge", "Counter", "FAILURE_RATE_GAUGE", "ALERT_COUNT_COUNTER",
   "logger", "MAX_WINDOW_SIZE", "node_result_window", "ALERT_TYPE",
   "record_task_result", "get_failure_rate", "send_failure_alert",
   "monitor_failure_rate_loop"]

/-- Python `x or dflt` on an optional string: `dflt` when the value is
`None` or empty. -/
def orDefault (x : Option String) (dflt : String) : String :=
  match x with
  | some s => if s == "" then dflt else s
  | none => dflt

/-- The NORMAL/ALERTING transition logic of
`monitor_failure_rate_loop` (the reads, comparisons and writes of its
lines after the metric gauge update): notify and persist `ALERTING` on
a NORMAL-to-over-threshold poll, notify and persist `NORMAL` on an
ALERTING-to-below-threshold poll, otherwise do nothing. -/
def alertTransition (threshold : ℚ) (current_rate : ℚ) (store : AlertStore) :
    AlertStore × List Notification :=
  let previous_state := orDefault (get_alert_state store ALERT_TYPE).1 "NORMAL"
  let is_over_threshold : Bool := decide (threshold < current_rate)
  if is_over_threshold && previous_state == "NORMAL" then
    ((set_alert_state store ALERT_TYPE "ALERTING").1,
     [{ is_recovery := false, rate := current_rate }])
  else if !is_over_threshold && previous_state == "ALERTING" then
    ((set_alert_state store ALERT_TYPE "NORMAL").1,
     [{ is_recovery := true, rate := current_rate }])
  else
    (store, [])

/-- The `try` body of one `monitor_failure_rate_loop` iteration as
written: compute the failure rate, then evaluate
`if PROMETHEUS_METRICS_ENABLED and FAILURE_RATE_GAUGE:`.  Evaluating a
name that is not bound in the module raises `NameError`, so the
transition logic below that line is reached only if the name is bound. -/
def monitorTryBody (threshold : ℚ) (window : List Bool) (store : AlertStore) :
    Except String (AlertStore × List Notification) :=
  let current_rate := get_failure_rate window
  if alertModuleGlobals.contains "PROMETHEUS_METRICS_ENABLED" then
    .ok (alertTransition threshold current_rate store)
  else
    .error "NameError: name \x27PROMETHEUS_METRICS_ENABLED\x27 is not defined"

/-- One full iteration of `monitor_failure_rate_loop`: the `try` body,
with `except Exception` logging the error and leaving the alert store
untouched and nothing notified. -/
def monitorIteration (threshold : ℚ) (window : List Bool)
    (store : AlertStore) : AlertStore × List Notification :=
  match monitorTryBody threshold window store with
  | .ok r => r
  | .error _ => (store, [])

/-- Run the monitor loop over successive polls, the window contents at
each poll given by `windows`, accumulating dispatched notifications in
order. -/
def monitorRun (threshold : ℚ) (windows : List (List Bool))
    (store : AlertStore) : AlertStore × List Notification :=
  windows.foldl
    (fun acc window =>
      let step := monitorIteration threshold window acc.1
      (step.1, acc.2 ++ step.2))
    (store, [])

/-- The intended monitor loop — the same iterations with the
module-scope name resolution slip absent, i.e. each poll runs
`alertTransition` directly. -/
def monitorRunIntended (threshold : ℚ) (windows : List (List Bool))
    (store : AlertStore) : AlertStore × List Notification :=
  windows.foldl
    (fun acc window =>
      let step := alertTransition threshold (get_failure_rate window) acc.1
      (step.1, acc.2 ++ step.2))
    (store, [])

/-! ### Store key layout -/

/-- Every key instance the spec key-layout section allows for
session id `sid`, together with the queue and alert-type names this
codebase uses: `state:<id>`, `state:<id>:base`, `state:<id>:group1`,
`state:<id>:group2`, `lock:session:<id>`, `queue:<name>` for the one
queue name `session_tasks`, and `alert:state:<type>` for the two
alert types `failure_rate` and `queue_length`. -/
def specLayoutKeys (sid : String) : List String :=
  ["state:" ++ sid,
   "state:" ++ sid ++ ":base",
   "state:" ++ sid ++ ":group1",
   "state:" ++ sid ++ ":group2",
   "lock:session:" ++ sid,
   "queue:session_tasks",
   "alert:state:failure_rate",
   "alert:state:queue_length"]

/-- The key layout the code actually uses for session id `sid`: as the
spec layout, but the sharded result shards live at `state:<id>:research`
and `state:<id>:code`. -/
def codeLayout (sid : String) (k : String) : Prop :=
  k = "state:" ++ sid ∨
  k = "state:" ++ sid ++ ":base" ∨
  k = "state:" ++ sid ++ ":research" ∨
  k = "state:" ++ sid ++ ":code" ∨
  k = "lock:session:" ++ sid ∨
  (∃ n, k = "queue:" ++ n) ∨
  (∃ t, k = "alert:state:" ++ t)

/-! ### Association-list and key lemmas -/

theorem alookup_aset_self {α : Type} (l : List (String × α)) (k : String) (v : α) :
    alookup (aset l k v) k = some v := by
  induction l with
  | nil => simp [aset, alookup]
  | cons hd tl ih =>
    by_cases h : hd.1 = k
    · simp [aset, alookup, h]
    · simp [aset, alookup, h, ih]

theorem alookup_aset_of_ne {α : Type} (l : List (String × α)) {k k2 : String}
    (h : k ≠ k2) (v : α) : alookup (aset l k v) k2 = alookup l k2 := by
  induction l with
  | nil => simp [aset, alookup, h]
  | cons hd tl ih =>
    obtain ⟨k1, v1⟩ := hd
    by_cases h1 : k1 = k
    · subst h1
      simp [aset, alookup, h]
    · simp [aset, alookup, h1, ih]

theorem append_left_cancel_str (x a b : String) (h : x ++ a = x ++ b) : a = b := by
  have hd : (x ++ a).data = (x ++ b).data := congrArg String.data h
  rw [String.data_append, String.data_append] at hd
  exact String.ext (List.append_cancel_left hd)

theorem append_ne_of_ne (x : String) {a b : String} (h : a ≠ b) :
    x ++ a ≠ x ++ b :=
  fun he => h (append_left_cancel_str x a b he)

theorem base_ne_research (sid : String) :
    "state:" ++ sid ++ ":base" ≠ "state:" ++ sid ++ ":research" :=
  append_ne_of_ne ("state:" ++ sid) (by decide)

theorem base_ne_code (sid : String) :
    "state:" ++ sid ++ ":base" ≠ "state:" ++ sid ++ ":code" :=
  append_ne_of_ne ("state:" ++ sid) (by decide)

theorem research_ne_code (sid : String) :
    "state:" ++ sid ++ ":research" ≠ "state:" ++ sid ++ ":code" :=
  append_ne_of_ne ("state:" ++ sid) (by decide)

/-! ### Claim theorems -/

/-- C1: when lock acquisition fails, `run_langgraph` returns the busy
error map carrying the session id, and the world — state store,
published events, engine invocations, lock releases — is untouched. -/
theorem run_langgraph_busy_noop (engine : Dict → Except String Dict)
    (w : World) (initial_state : Dict) (session_id : String)
    (use_sharded : Bool) :
    run_langgraph engine none w initial_state session_id use_sharded =
      ([("_session_id", .str session_id), ("error", .str busyMessage)], w) :=
  rfl

/-- C8: the work queue is FIFO for a single consumer — after enqueuing
item a then item b on an empty queue, the first dequeue returns a and
the second returns b, leaving the queue empty. -/
theorem queue_fifo_order (sa ta sb tb : String) :
    (dequeue_session ((enqueue_session ((enqueue_session [] sa ta).1) sb tb).1)).1
      = some (.obj [("session_id", .str sa), ("topic", .str ta)]) ∧
    (dequeue_session
      ((dequeue_session ((enqueue_session ((enqueue_session [] sa ta).1) sb tb).1)).2.1)).1
      = some (.obj [("session_id", .str sb), ("topic", .str tb)]) ∧
    (dequeue_session
      ((dequeue_session ((enqueue_session ((enqueue_session [] sa ta).1) sb tb).1)).2.1)).2.1
      = [] := by
  refine ⟨?_, ?_, ?_⟩ <;> simp [enqueue_session, dequeue_session]

/-- C10: the sharded round trip projects any state onto the fixed
eight-field schema — reading back immediately after a sharded write
yields a map whose keys are exactly `topic`, `tasks`,
`research_results`, `code_results`, `report_paths`, `audio_path`,
`_session_id`, `error`; every other key of the written state is
dropped. -/
theorem sharded_roundtrip_projection (st : StateStore) (sid : String)
    (state : Dict) :
    Option.map dictKeys
      ((get_state_sharded ((set_state_sharded st sid state).1) sid).1)
      = some ["topic", "tasks", "research_results", "code_results",
              "report_paths", "audio_path", "_session_id", "error"] := by
  simp only [set_state_sharded, get_state_sharded]
  rw [alookup_aset_of_ne _ (Ne.symm (base_ne_code sid)),
      alookup_aset_of_ne _ (Ne.symm (base_ne_research sid)),
      alookup_aset_self]
  simp [dictKeys, asObj]

/-- C9 counterexample: at session id `"s"` the sharded writer touches
the key `state:s:research` (and `state:s:code`), which is none of the
spec layout key instances for that session — the layout names the
result shards `state:<id>:group1` and `state:<id>:group2`. -/
theorem sharded_keys_outside_spec_layout :
    (set_state_sharded [] "s" []).2
      = ["state:s:base", "state:s:research", "state:s:code"] ∧
    "state:s:research" ∉ specLayoutKeys "s" ∧
    "state:s:code" ∉ specLayoutKeys "s" := by
  decide

/-- C9 (amended): every key any store operation of the cache, lock and
alert-state modules reads or writes for session id `sid` matches the
code layout — `state:<id>`, `state:<id>:base`, `state:<id>:research`,
`state:<id>:code`, `lock:session:<id>`, `queue:<name>`,
`alert:state:<type>`. -/
theorem store_keys_match_code_layout (sid topic tok aty av : String)
    (st : StateStore) (state : Dict) (q : Queue) (ls : LockStore)
    (als : AlertStore) (block store_error : Bool) :
    ((set_state st sid state).2).Forall (codeLayout sid) ∧
    ((get_state st sid).2).Forall (codeLayout sid) ∧
    ((delete_state st sid).2).Forall (codeLayout sid) ∧
    ((set_state_sharded st sid state).2).Forall (codeLayout sid) ∧
    ((get_state_sharded st sid).2).Forall (codeLayout sid) ∧
    ((delete_state_sharded st sid).2).Forall (codeLayout sid) ∧
    ((enqueue_session q sid topic).2).Forall (codeLayout sid) ∧
    ((dequeue_session q block).2.2).Forall (codeLayout sid) ∧
    ((try_acquire ls sid tok).2.2).Forall (codeLayout sid) ∧
    ((release_lock ls sid tok store_error).2.2).Forall (codeLayout sid) ∧
    ((get_alert_state als aty).2).Forall (codeLayout sid) ∧
    ((set_alert_state als aty av).2).Forall (codeLayout sid) := by
  have hstate : codeLayout sid ("state:" ++ sid) := Or.inl rfl
  have hbase : codeLayout sid ("state:" ++ sid ++ ":base") := Or.inr (Or.inl rfl)
  have hres : codeLayout sid ("state:" ++ sid ++ ":research") :=
    Or.inr (Or.inr (Or.inl rfl))
  have hcode : codeLayout sid ("state:" ++ sid ++ ":code") :=
    Or.inr (Or.inr (Or.inr (Or.inl rfl)))
  have hlock : codeLayout sid ("lock:session:" ++ sid) :=
    Or.inr (Or.inr (Or.inr (Or.inr (Or.inl rfl))))
  have hqueue : codeLayout sid QUEUE_NAME :=
    Or.inr (Or.inr (Or.inr (Or.inr (Or.inr (Or.inl ⟨"session_tasks", rfl⟩)))))
  have halert : ∀ t, codeLayout sid ("alert:state:" ++ t) := fun t =>
    Or.inr (Or.inr (Or.inr (Or.inr (Or.inr (Or.inr ⟨t, rfl⟩)))))
  refine ⟨?_, ?_, ?_, ?_, ?_, ?_, ?_, ?_, ?_, ?_, ?_, ?_⟩
  · simpa [set_state, List.Forall] using hstate
  · simpa [get_state, List.Forall] using hstate
  · simpa [delete_state, List.Forall] using hstate
  · simpa [set_state_sharded, List.Forall] using ⟨hbase, hres, hcode⟩
  · rcases h : alookup st ("state:" ++ sid ++ ":base") with _ | v
    · simpa [get_state_sharded, h, List.Forall] using hbase
    · simpa [get_state_sharded, h, List.Forall] using ⟨hbase, hres, hcode⟩
  · simpa [delete_state_sharded, List.Forall] using ⟨hbase, hres, hcode⟩
  · simpa [enqueue_session, List.Forall] using hqueue
  · rcases h : q.getLast? with _ | item <;>
      cases block <;>
      simpa [dequeue_session, h, List.Forall] using hqueue
  · rcases h : alookup ls ("lock:session:" ++ sid) with _ | v <;>
      simpa [try_acquire, h, List.Forall] using hlock
  · cases store_error
    · rcases h : alookup ls ("lock:session:" ++ sid) with _ | v
      · simpa [release_lock, h, List.Forall] using hlock
      · by_cases hv : v == tok <;>
          simpa [release_lock, h, hv, List.Forall] using hlock
    · simpa [release_lock, List.Forall] using hlock
  · simpa [get_alert_state, List.Forall] using halert aty
  · simpa [set_alert_state, List.Forall] using halert aty

/-- A 20-outcome window with one failure: failure rate 0.05. -/
def window005 : List Bool := List.replicate 19 true ++ [false]

/-- A 20-outcome window with three failures: failure rate 0.15. -/
def window015 : List Bool := List.replicate 17 true ++ [false, false, false]

/-- C7 (the code at the failing input): with threshold 0.1 and three
polls at failure rates 0.05, 0.15, 0.05 from the NORMAL (absent)
state, `monitor_failure_rate_loop` as written dispatches no
notification at all and never writes an alert state — every iteration
evaluates the unbound module name `PROMETHEUS_METRICS_ENABLED` before
reaching the transition logic, and the resulting `NameError` is
swallowed by the loop-level `except Exception`. -/
theorem monitor_as_written_sends_nothing :
    monitorRun (1/10) [window005, window015, window005] [] = ([], []) :=
  rfl

/-- The transition logic itself (the loop below the unbound-name read)
does satisfy the claim: on 0.05, 0.15, 0.05 against threshold 0.1 it
dispatches exactly one alert and then exactly one recovery. -/
theorem monitor_intended_hysteresis :
    monitorRunIntended (1/10) [window005, window015, window005] []
      = ([("alert:state:failure_rate", "NORMAL")],
         [{ is_recovery := false, rate := 3/20 },
          { is_recovery := true, rate := 1/20 }]) := by
  have h005 : get_failure_rate window005 = 1/20 := by
    simp [get_failure_rate, window005, List.count_append, List.count_replicate]
  have h015 : get_failure_rate window015 = 3/20 := by
    simp [get_failure_rate, window015, List.count_append, List.count_replicate]
  norm_num [monitorRunIntended, alertTransition, get_alert_state,
            set_alert_state, alookup, aset, ALERT_TYPE, orDefault, h005, h015]
  rw [if_pos (by decide)]
  refine ⟨rfl, ?_⟩
  rw [if_neg (by decide)]
  rfl

/-- C5: `release_lock` deletes the lock key only when the stored token
equals the caller token — a mismatching or absent stored token gives
`false` with the store untouched, a matching token gives `true` with
exactly that key deleted, and a store error gives `false` (no
exception) with the store untouched. -/
theorem release_lock_token_guard (ls : LockStore) (sid tok v : String) :
    ((release_lock ls sid tok true).1 = false ∧
       (release_lock ls sid tok true).2.1 = ls) ∧
    (alookup ls ("lock:session:" ++ sid) = some v → v ≠ tok →
       (release_lock ls sid tok false).1 = false ∧
       (release_lock ls sid tok false).2.1 = ls) ∧
    (alookup ls ("lock:session:" ++ sid) = none →
       (release_lock ls sid tok false).1 = false ∧
       (release_lock ls sid tok false).2.1 = ls) ∧
    (alookup ls ("lock:session:" ++ sid) = some tok →
       (release_lock ls sid tok false).1 = true ∧
       (release_lock ls sid tok false).2.1
         = adel ls ("lock:session:" ++ sid)) := by
  refine ⟨⟨rfl, rfl⟩, ?_, ?_, ?_⟩
  · intro h hne
    simp [release_lock, h, hne]
  · intro h
    simp [release_lock, h]
  · intro h
    simp [release_lock, h]

/-- C5 witness: concrete store holding token `t1`; releasing with the
mismatching token `t2` fails and keeps the key. -/
theorem release_lock_token_guard_witness :
    alookup [("lock:session:s", "t1")] ("lock:session:" ++ "s") = some "t1" ∧
    "t1" ≠ "t2" ∧
    ((release_lock [("lock:session:s", "t1")] "s" "t2" false).1 = false ∧
     (release_lock [("lock:session:s", "t1")] "s" "t2" false).2.1
       = [("lock:session:s", "t1")]) :=
  ⟨by decide, by decide,
   (release_lock_token_guard [("lock:session:s", "t1")] "s" "t2" "t1").2.1
     (by decide) (by decide)⟩

/-- C6: reading a sharded session combines the shards that exist and
defaults each missing result shard to `{}` rather than an error; in
particular, after `set_state_sharded` of `{topic: "t",
research_results: {x: 1}}` the read returns `topic` and
`research_results` intact and `code_results` defaulted to `{}`. -/
theorem sharded_defaults_and_roundtrip (st : StateStore) (sid : String)
    (b : Dict) :
    (alookup st ("state:" ++ sid ++ ":base") = some (.obj b) →
     alookup st ("state:" ++ sid ++ ":research") = none →
     alookup st ("state:" ++ sid ++ ":code") = none →
       (get_state_sharded st sid).1 =
         some [("topic", getv b "topic"), ("tasks", getv b "tasks"),
               ("research_results", .obj []), ("code_results", .obj []),
               ("report_paths", getv b "report_paths"),
               ("audio_path", getv b "audio_path"),
               ("_session_id", getv b "_session_id"),
               ("error", getv b "error")]) ∧
    (get_state_sharded ((set_state_sharded [] "s1"
        [("topic", .str "t"),
         ("research_results", .obj [("x", .num 1)])]).1) "s1").1
      = some [("topic", .str "t"), ("tasks", .null),
              ("research_results", .obj [("x", .num 1)]),
              ("code_results", .obj []),
              ("report_paths", .null), ("audio_path", .null),
              ("_session_id", .null), ("error", .null)] := by
  constructor
  · intro hbase hres hcode
    simp [get_state_sharded, hbase, hres, hcode, asObj]
  · rfl

/-- C6 witness: a store holding only a base shard; both result shards
come back defaulted to `{}`. -/
theorem sharded_defaults_and_roundtrip_witness :
    alookup [("state:s:base", JVal.obj [])] ("state:" ++ "s" ++ ":base")
      = some (.obj []) ∧
    alookup [("state:s:base", JVal.obj [])] ("state:" ++ "s" ++ ":research")
      = none ∧
    alookup [("state:s:base", JVal.obj [])] ("state:" ++ "s" ++ ":code")
      = none ∧
    (get_state_sharded [("state:s:base", JVal.obj [])] "s").1 =
      some [("topic", getv [] "topic"), ("tasks", getv [] "tasks"),
            ("research_results", .obj []), ("code_results", .obj []),
            ("report_paths", getv [] "report_paths"),
            ("audio_path", getv [] "audio_path"),
            ("_session_id", getv [] "_session_id"),
            ("error", getv [] "error")] :=
  ⟨rfl, rfl, rfl,
   (sharded_defaults_and_roundtrip [("state:s:base", JVal.obj [])] "s" []).1
     rfl rfl rfl⟩

/-- Validation failure inside the `try` body: the `ValueError` lands in
the except block — one `ALL`/`ERROR` event, the merged state persisted
with the error, the structured error map returned. -/
theorem runTry_validation_fails (engine : Dict → Except String Dict)
    (w : World) (channel sid : String) (cs : Dict) (ush : Bool)
    (hval : (!(hasKey cs "topic") || !(getv cs "topic").truthy) = true) :
    runTry engine w channel sid cs ush =
      ([("_session_id", .str sid), ("error", .str topicRequiredMessage)],
       ⟨saveState w.stateStore sid
          (setKey cs "error" (.str topicRequiredMessage)) ush,
        w.published ++
          [(channel, ⟨sid, "ALL", "ERROR",
            [("error", .str topicRequiredMessage)]⟩)],
        w.engineCalls, w.releaseCalls⟩) := by
  unfold runTry
  rw [hval]
  rfl

/-- Engine failure inside the `try` body: `START` was published, the
engine was invoked once, and the exception lands in the except block. -/
theorem runTry_engine_error (engine : Dict → Except String Dict)
    (w : World) (channel sid msg : String) (cs : Dict) (ush : Bool)
    (hval : (!(hasKey cs "topic") || !(getv cs "topic").truthy) = false)
    (heng : engine cs = .error msg) :
    runTry engine w channel sid cs ush =
      ([("_session_id", .str sid), ("error", .str msg)],
       ⟨saveState w.stateStore sid (setKey cs "error" (.str msg)) ush,
        w.published ++
          [(channel, ⟨sid, "ALL", "START", [("topic", getv cs "topic")]⟩),
           (channel, ⟨sid, "ALL", "ERROR", [("error", .str msg)]⟩)],
        w.engineCalls ++ [cs], w.releaseCalls⟩) := by
  unfold runTry
  rw [hval]
  simp only [Bool.false_eq_true, if_false, heng]
  simp [exceptBlock, publishEvent]

/-- No branch of the `try` body touches the release-call log. -/
theorem runTry_releaseCalls (engine : Dict → Except String Dict)
    (w : World) (channel sid : String) (cs : Dict) (ush : Bool) :
    ((runTry engine w channel sid cs ush).2).releaseCalls
      = w.releaseCalls := by
  unfold runTry
  cases hc : (!(hasKey cs "topic") || !(getv cs "topic").truthy)
  · cases he : engine cs <;>
      simp [exceptBlock, publishEvent]
  · simp [exceptBlock, publishEvent]

/-- C2: with the lock held but the merged state lacking a usable
`topic`, `run_langgraph` returns the structured validation error, the
engine is never invoked, exactly one ERROR event (and no START event)
is published on the session channel, the merged state augmented with
the error is persisted, and the lock is released once. -/
theorem run_langgraph_missing_topic (engine : Dict → Except String Dict)
    (w : World) (lock_id : String) (initial_state : Dict) (sid : String)
    (ush : Bool) (hlock : lock_id ≠ "")
    (hval : (!(hasKey (mergedState w.stateStore sid initial_state ush) "topic")
      || !(getv (mergedState w.stateStore sid initial_state ush) "topic").truthy)
      = true) :
    run_langgraph engine (some lock_id) w initial_state sid ush =
      ([("_session_id", .str sid), ("error", .str topicRequiredMessage)],
       ⟨saveState w.stateStore sid
          (setKey (mergedState w.stateStore sid initial_state ush) "error"
            (.str topicRequiredMessage)) ush,
        w.published ++
          [("channel:session:" ++ sid,
            ⟨sid, "ALL", "ERROR", [("error", .str topicRequiredMessage)]⟩)],
        w.engineCalls,
        w.releaseCalls ++ [(sid, lock_id)]⟩) := by
  have ht : truthyLock (some lock_id) = true := by simp [truthyLock, hlock]
  have hrt := runTry_validation_fails engine w ("channel:session:" ++ sid) sid
    (mergedState w.stateStore sid initial_state ush) ush hval
  simp [run_langgraph, ht, hrt, hlock]

/-- C2 witness: `run({}, session_id = "s1")` against an empty store. -/
theorem run_langgraph_missing_topic_witness :
    ("L" : String) ≠ "" ∧
    (!(hasKey (mergedState ([] : StateStore) "s1" [] true) "topic")
      || !(getv (mergedState ([] : StateStore) "s1" [] true) "topic").truthy)
      = true ∧
    run_langgraph (fun d => Except.ok d) (some "L") ⟨[], [], [], []⟩ [] "s1" true
      = ([("_session_id", .str "s1"), ("error", .str topicRequiredMessage)],
         ⟨saveState ([] : StateStore) "s1"
            (setKey (mergedState ([] : StateStore) "s1" [] true) "error"
              (.str topicRequiredMessage)) true,
          [] ++
            [("channel:session:" ++ "s1",
              ⟨"s1", "ALL", "ERROR", [("error", .str topicRequiredMessage)]⟩)],
          ([] : List Dict),
          [] ++ [("s1", "L")]⟩) :=
  ⟨by decide, by decide,
   run_langgraph_missing_topic (fun d => Except.ok d) ⟨[], [], [], []⟩ "L" []
     "s1" true (by decide) (by decide)⟩

/-- C3: when the engine invocation raises, `run_langgraph` catches it:
the pre-engine merged state tagged with the exception message is
persisted, an `ALL`/`ERROR` event is published on the session channel,
the lock is released once, and the structured map
`{_session_id, error}` is returned — no exception propagates. -/
theorem run_langgraph_engine_error_contained
    (engine : Dict → Except String Dict) (w : World)
    (lock_id msg : String) (initial_state : Dict) (sid : String)
    (ush : Bool) (hlock : lock_id ≠ "")
    (hval : (!(hasKey (mergedState w.stateStore sid initial_state ush) "topic")
      || !(getv (mergedState w.stateStore sid initial_state ush) "topic").truthy)
      = false)
    (heng : engine (mergedState w.stateStore sid initial_state ush)
      = .error msg) :
    run_langgraph engine (some lock_id) w initial_state sid ush =
      ([("_session_id", .str sid), ("error", .str msg)],
       ⟨saveState w.stateStore sid
          (setKey (mergedState w.stateStore sid initial_state ush) "error"
            (.str msg)) ush,
        w.published ++
          [("channel:session:" ++ sid,
            ⟨sid, "ALL", "START",
             [("topic", getv (mergedState w.stateStore sid initial_state ush)
                "topic")]⟩),
           ("channel:session:" ++ sid,
            ⟨sid, "ALL", "ERROR", [("error", .str msg)]⟩)],
        w.engineCalls ++ [mergedState w.stateStore sid initial_state ush],
        w.releaseCalls ++ [(sid, lock_id)]⟩) := by
  have ht : truthyLock (some lock_id) = true := by simp [truthyLock, hlock]
  have hrt := runTry_engine_error engine w ("channel:session:" ++ sid) sid msg
    (mergedState w.stateStore sid initial_state ush) ush hval heng
  simp [run_langgraph, ht, hrt, hlock]

/-- C3 witness: a store-less session with topic `"t"` and an engine
that raises `"boom"`. -/
theorem run_langgraph_engine_error_contained_witness :
    ("L" : String) ≠ "" ∧
    (!(hasKey (mergedState ([] : StateStore) "s1" [("topic", .str "t")] true)
        "topic")
      || !(getv (mergedState ([] : StateStore) "s1" [("topic", .str "t")] true)
        "topic").truthy) = false ∧
    (fun (_ : Dict) => (Except.error "boom" : Except String Dict))
        (mergedState ([] : StateStore) "s1" [("topic", .str "t")] true)
      = .error "boom" ∧
    run_langgraph (fun _ => Except.error "boom") (some "L") ⟨[], [], [], []⟩
        [("topic", .str "t")] "s1" true
      = ([("_session_id", .str "s1"), ("error", .str "boom")],
         ⟨saveState ([] : StateStore) "s1"
            (setKey (mergedState ([] : StateStore) "s1" [("topic", .str "t")]
              true) "error" (.str "boom")) true,
          [] ++
            [("channel:session:" ++ "s1",
              ⟨"s1", "ALL", "START",
               [("topic", getv (mergedState ([] : StateStore) "s1"
                  [("topic", .str "t")] true) "topic")]⟩),
             ("channel:session:" ++ "s1",
              ⟨"s1", "ALL", "ERROR", [("error", .str "boom")]⟩)],
          [] ++ [mergedState ([] : StateStore) "s1" [("topic", .str "t")] true],
          [] ++ [("s1", "L")]⟩) :=
  ⟨by decide, by decide, rfl,
   run_langgraph_engine_error_contained (fun _ => Except.error "boom")
     ⟨[], [], [], []⟩ "L" "boom" [("topic", .str "t")] "s1" true
     (by decide) (by decide) rfl⟩

/-- C4: across every path, `run_langgraph` records exactly one release
of the session lock when acquisition succeeded and none otherwise. -/
theorem run_langgraph_release_iff_acquired
    (engine : Dict → Except String Dict) (acquired : Option String)
    (w : World) (initial_state : Dict) (sid : String) (ush : Bool) :
    ((run_langgraph engine acquired w initial_state sid ush).2).releaseCalls
      = w.releaseCalls ++
          (if truthyLock acquired then [(sid, acquired.getD "")] else []) := by
  cases acquired with
  | none => simp [run_langgraph, truthyLock]
  | some lid =>
    by_cases hl : lid = ""
    · subst hl
      simp [run_langgraph, truthyLock]
    · have ht : truthyLock (some lid) = true := by simp [truthyLock, hl]
      rcases hrt : runTry engine w ("channel:session:" ++ sid) sid
        (mergedState w.stateStore sid initial_state ush) ush with ⟨res, w1⟩
      have hrel : w1.releaseCalls = w.releaseCalls := by
        have h2 := runTry_releaseCalls engine w ("channel:session:" ++ sid) sid
          (mergedState w.stateStore sid initial_state ush) ush
        rw [hrt] at h2
        exact h2
      simp [run_langgraph, ht, hrt, hl, hrel]
